import Mathlib

/-!
# GarudaNetra attendance core — shallow embedding

A shallow embedding of the attendance state machine and reporting layer of
the GarudaNetra repository (`server/storage.ts` = `MemStorage`, and the
attendance / report route handlers of `server/routes.ts`), together with
theorems settling the frozen claims about the natural-language specification.

Modelling conventions:
* JS `Map` values (iterated in insertion order) are association lists whose
  key is the `id` field; `Map.set` with a fresh key appends at the end.
* `crypto.randomUUID()` is modelled by a fresh-id counter `nextId` threaded
  through the store; only freshness matters to the claims.
* `new Date()` timestamps are modelled by an explicit `now : Nat` argument;
  the "today" date string computed by the route handlers is an explicit
  `today : String` argument.
* JS numbers are modelled as exact rationals `ℚ` (the quantities involved
  are small integer counts and their quotients); `Math.round` is
  `jsRound q = ⌊q + 1/2⌋`.
* JS string comparison (`<=` and `localeCompare` on ASCII ISO dates and
  names) is modelled by the lexicographic order on Lean `String`.
* JS `Array.prototype.sort` (stable since ES2019) is modelled by
  Mathlib's stable `List.insertionSort`.
* JS truthiness tests on optional strings (`if (filters?.className)`,
  `insertAttendance.method || null`) are modelled explicitly: `none` and
  `some ""` are falsy.
-/

/-- Rounding as JS `Math.round`: round half toward positive infinity. -/
def jsRound (q : ℚ) : Int := ⌊q + 1/2⌋

/-- A student entity (table `students` of `shared/schema.ts`). -/
structure Student where
  id : String
  admissionNo : String
  name : String
  className : String
  sectionName : String
  rollNo : String
  email : Option String
  contactNo : Option String
  parentContact : Option String
  photoUrl : Option String
  qrCode : Option String
  faceDescriptor : Option String
  createdAt : Nat
deriving DecidableEq, Repr

/-- An attendance record (table `attendance` of `shared/schema.ts`).
`status` and `method` are plain strings, as in the insert schema
(`drizzle-zod` derives `z.string()` for `text` columns, so arbitrary
strings are admitted by validation). -/
structure Attendance where
  id : String
  studentId : String
  date : String
  status : String
  method : Option String
  timestamp : Nat
  markedBy : Option String
deriving DecidableEq, Repr

/-- Payload of `insertAttendanceSchema` (`attendance` minus `id`, `timestamp`). -/
structure InsertAttendance where
  studentId : String
  date : String
  status : String
  method : Option String
  markedBy : Option String
deriving DecidableEq, Repr

/-- Payload of `insertStudentSchema` (`students` minus `id`, `createdAt`, `qrCode`). -/
structure InsertStudent where
  admissionNo : String
  name : String
  className : String
  sectionName : String
  rollNo : String
  email : Option String
  contactNo : Option String
  parentContact : Option String
  photoUrl : Option String
  faceDescriptor : Option String
deriving DecidableEq, Repr

/-- Optional filters accepted by `MemStorage.getStudents`. -/
structure StudentFilters where
  className : Option String
  sectionName : Option String
deriving DecidableEq, Repr

/-- Date range `{from, to}` used by history queries. -/
structure DateRange where
  fromDate : String
  toDate : String
deriving DecidableEq, Repr

/-- The in-memory store of `MemStorage` (its `Map` fields, as
insertion-ordered lists), plus the fresh-id counter standing in for
`randomUUID`.  Users, classes and saved reports play no role in the claims
and are omitted. -/
structure MemStorage where
  students : List Student
  attendance : List Attendance
  nextId : Nat
deriving DecidableEq, Repr

/-- Fresh identifier generation (stands in for `crypto.randomUUID()`). -/
def genId (n : Nat) : String := "uuid-" ++ toString n

/-- JS truthiness of an optional string: `undefined`/`""` are falsy. -/
def strTruthy : Option String → Bool
  | some s => s ≠ ""
  | none => false

/-- JS `x || null` coalescing on an optional string field. -/
def orNull (o : Option String) : Option String :=
  match o with
  | some s => if s = "" then none else some s
  | none => none

/-- Lexicographic `≤` on character lists: the order JS uses for string
`<=`, `>=` and (on ASCII data such as ISO dates and the names compared by
`localeCompare`) for sorting. -/
def lexLe : List Char → List Char → Bool
  | [], _ => true
  | _ :: _, [] => false
  | c :: cs, d :: ds => if c < d then true else if d < c then false else lexLe cs ds

/-- Lexicographic string comparison (JS `a <= b` on strings). -/
def strLe (a b : String) : Bool := lexLe a.data b.data

theorem lexLe_refl : ∀ l : List Char, lexLe l l = true
  | [] => rfl
  | c :: cs => by simp [lexLe, lexLe_refl cs]

theorem lexLe_total : ∀ a b : List Char, lexLe a b = true ∨ lexLe b a = true
  | [], _ => .inl rfl
  | _ :: _, [] => .inr rfl
  | c :: cs, d :: ds => by
    rcases lt_trichotomy c d with h | h | h
    · exact .inl (by simp [lexLe, h])
    · subst h
      rcases lexLe_total cs ds with h' | h' <;>
        [exact .inl (by simp [lexLe, h']); exact .inr (by simp [lexLe, h'])]
    · exact .inr (by simp [lexLe, h])

theorem lexLe_trans :
    ∀ {a b c : List Char}, lexLe a b = true → lexLe b c = true → lexLe a c = true
  | [], _, _, _, _ => rfl
  | _ :: _, [], _, h, _ => by simp [lexLe] at h
  | _ :: _, _ :: _, [], _, h' => by simp [lexLe] at h'
  | x :: xs, y :: ys, z :: zs, h, h' => by
    by_cases hxy : x < y
    · by_cases hyz : y < z
      · simp [lexLe, lt_trans hxy hyz]
      · by_cases hzy : z < y
        · simp [lexLe, hyz, hzy] at h'
        · have : y = z := le_antisymm (le_of_not_lt hzy) (le_of_not_lt hyz)
          subst this
          simp [lexLe, hxy]
    · by_cases hyx : y < x
      · simp [lexLe, hxy, hyx] at h
      · have hxy' : x = y := le_antisymm (le_of_not_lt hyx) (le_of_not_lt hxy)
        subst hxy'
        simp only [lexLe, if_neg (lt_irrefl x)] at h
        by_cases hyz : x < z
        · simp [lexLe, hyz]
        · by_cases hzy : z < x
          · simp [lexLe, hyz, hzy] at h'
          · have : x = z := le_antisymm (le_of_not_lt hzy) (le_of_not_lt hyz)
            subst this
            simp only [lexLe, if_neg (lt_irrefl x)] at h' ⊢
            exact lexLe_trans h h'

/-- The comparator `(a, b) => a.name.localeCompare(b.name)` of
`getStudents`, embedded as the lexicographic order on names. -/
def studentNameLe (a b : Student) : Prop := strLe a.name b.name = true

instance : DecidableRel studentNameLe := fun a b => by
  unfold studentNameLe; infer_instance

instance : IsTotal Student studentNameLe :=
  ⟨fun a b => lexLe_total a.name.data b.name.data⟩

instance : IsTrans Student studentNameLe :=
  ⟨fun _ _ _ h h' => lexLe_trans h h'⟩

/-- The comparator `(a, b) => b.date.localeCompare(a.date)` of
`getAttendanceHistory` (descending by date). -/
def attendanceDateGe (a b : Attendance) : Prop := strLe b.date a.date = true

instance : DecidableRel attendanceDateGe := fun a b => by
  unfold attendanceDateGe; infer_instance

namespace MemStorage

/-- Embeds `MemStorage.getStudent`: `this.students.get(id)`. -/
def getStudent (st : MemStorage) (id : String) : Option Student :=
  st.students.find? (fun s => s.id = id)

/-- Embeds `MemStorage.getStudents`: truthy filter fields applied in turn, then
`sort((a, b) => a.name.localeCompare(b.name))` (stable). -/
def getStudents (st : MemStorage) (filters : Option StudentFilters) : List Student :=
  let l : List Student := st.students
  let l : List Student := match filters with
    | none => l
    | some f =>
      let l : List Student := if strTruthy f.className then
          l.filter (fun s => s.className = f.className.getD "") else l
      if strTruthy f.sectionName then
          l.filter (fun s => s.sectionName = f.sectionName.getD "") else l
  l.insertionSort studentNameLe

/-- Embeds `MemStorage.createStudent`. -/
def createStudent (st : MemStorage) (ins : InsertStudent) (now : Nat) :
    Student × MemStorage :=
  let s : Student := {
    id := genId st.nextId
    admissionNo := ins.admissionNo
    name := ins.name
    className := ins.className
    sectionName := ins.sectionName
    rollNo := ins.rollNo
    email := orNull ins.email
    contactNo := orNull ins.contactNo
    parentContact := orNull ins.parentContact
    photoUrl := ins.photoUrl
    qrCode := some ("QR_" ++ ins.admissionNo)
    faceDescriptor := ins.faceDescriptor
    createdAt := now }
  (s, { st with students := st.students ++ [s], nextId := st.nextId + 1 })

/-- Embeds `MemStorage.deleteStudent`: `this.students.delete(id)`; returns whether
the key was present. -/
def deleteStudent (st : MemStorage) (id : String) : Bool × MemStorage :=
  (st.students.any (fun s => s.id = id),
   { st with students := st.students.filter (fun s => s.id ≠ id) })

/-- Embeds `MemStorage.getAttendance`: first record for `(studentId, date)`. -/
def getAttendance (st : MemStorage) (studentId date : String) : Option Attendance :=
  st.attendance.find? (fun a => a.studentId = studentId && a.date = date)

/-- Embeds `MemStorage.getAttendanceByDate`: records for the date, restricted to
students of the class when a truthy `className` is given. -/
def getAttendanceByDate (st : MemStorage) (date : String)
    (className : Option String) : List Attendance :=
  let recs := st.attendance.filter (fun a => a.date = date)
  if strTruthy className then
    let studentIds := (st.students.filter
      (fun s => s.className = className.getD "")).map (fun s => s.id)
    recs.filter (fun a => studentIds.contains a.studentId)
  else recs

/-- Embeds `MemStorage.getAttendanceHistory`: the student's records, range-filtered
with inclusive string comparisons, sorted descending by date (stable). -/
def getAttendanceHistory (st : MemStorage) (studentId : String)
    (dateRange : Option DateRange) : List Attendance :=
  let records : List Attendance := st.attendance.filter (fun a => a.studentId = studentId)
  let records : List Attendance := match dateRange with
    | some r => records.filter (fun a => strLe r.fromDate a.date && strLe a.date r.toDate)
    | none => records
  records.insertionSort attendanceDateGe

/-- Embeds `MemStorage.createAttendance`: unconditional insert with fresh id and
server-assigned timestamp (`method`/`markedBy` defaulted by `|| null`). -/
def createAttendance (st : MemStorage) (ins : InsertAttendance) (now : Nat) :
    Attendance × MemStorage :=
  let a : Attendance := {
    id := genId st.nextId
    studentId := ins.studentId
    date := ins.date
    status := ins.status
    method := orNull ins.method
    timestamp := now
    markedBy := orNull ins.markedBy }
  (a, { st with attendance := st.attendance ++ [a], nextId := st.nextId + 1 })

/-- Result shape of `MemStorage.getAttendanceStats`.  `absent` is an integer
because `totalStudents - attendanceRecords.length` may be negative. -/
structure Stats where
  totalStudents : Nat
  present : Nat
  absent : Int
  late : Nat
  attendanceRate : ℚ
deriving DecidableEq, Repr

/-- Embeds `MemStorage.getAttendanceStats`. -/
def getAttendanceStats (st : MemStorage) (date : String)
    (className : Option String) : Stats :=
  let students := st.getStudents
    (if strTruthy className then
      some { className := className, sectionName := none } else none)
  let attendanceRecords := st.getAttendanceByDate date className
  let totalStudents := students.length
  let present := (attendanceRecords.filter (fun a => a.status = "present")).length
  let absent := (attendanceRecords.filter (fun a => a.status = "absent")).length
  let late := (attendanceRecords.filter (fun a => a.status = "late")).length
  let unmarked : Int := (totalStudents : Int) - attendanceRecords.length
  let totalAbsent : Int := (absent : Int) + unmarked
  let attendanceRate : ℚ :=
    if totalStudents > 0 then (present : ℚ) / (totalStudents : ℚ) * 100 else 0
  { totalStudents := totalStudents
    present := present
    absent := totalAbsent
    late := late
    attendanceRate := attendanceRate }

/-- Embeds `MemStorage.getStudentAttendancePercentage`. -/
def getStudentAttendancePercentage (st : MemStorage) (studentId : String)
    (dateRange : Option DateRange) : ℚ :=
  let records := st.getAttendanceHistory studentId dateRange
  if records.length = 0 then 0
  else
    let presentDays := (records.filter
      (fun r => r.status = "present" || r.status = "late")).length
    (presentDays : ℚ) / (records.length : ℚ) * 100

end MemStorage

/-! ## Route handlers (`server/routes.ts`) -/

/-- The student summary returned by the QR / face marking responses. -/
structure StudentSummary where
  name : String
  admissionNo : String
  className : String
  sectionName : String
deriving DecidableEq, Repr

/-- Build the response summary for a student. -/
def summaryOf (s : Student) : StudentSummary :=
  { name := s.name, admissionNo := s.admissionNo
    className := s.className, sectionName := s.sectionName }

/-- Responses of the attendance-marking endpoints, keyed by status code and
message as sent by `server/routes.ts`. -/
inductive MarkResp where
  /-- Status 201 with the created record (`POST /api/attendance`). -/
  | created (a : Attendance)
  /-- Status 200 "Attendance marked ..." with summary and record (QR / face). -/
  | marked (student : StudentSummary) (a : Attendance)
  /-- Status 404 "Student not found". -/
  | notFound
  /-- Status 400 "Attendance already marked for today". -/
  | alreadyMarked
  /-- Status 400 "Face recognition confidence too low". -/
  | lowConfidence
  /-- Status 400 from the catch handler (validation / parse failure). -/
  | invalid
deriving DecidableEq, Repr

/-- Handler `POST /api/attendance` (manual marking): parses the body against
`insertAttendanceSchema` and calls `createAttendance` directly — there is no
duplicate check and no student-existence check on this path. -/
def postAttendance (st : MemStorage) (body : InsertAttendance) (now : Nat) :
    MarkResp × MemStorage :=
  let (attendance, st') := st.createAttendance body now
  (.created attendance, st')

/-- Handler `POST /api/attendance/qr`, after `JSON.parse(qrData)` has yielded a
`studentId`: resolve the student, reject a duplicate for today, else create
a `present` record with method `qr`. -/
def postAttendanceQr (st : MemStorage) (studentId : String)
    (today : String) (now : Nat) : MarkResp × MemStorage :=
  match st.getStudent studentId with
  | none => (.notFound, st)
  | some student =>
    match st.getAttendance student.id today with
    | some _ => (.alreadyMarked, st)
    | none =>
      let (attendance, st') := st.createAttendance
        { studentId := student.id, date := today, status := "present"
          method := some "qr", markedBy := none } now
      (.marked (summaryOf student) attendance, st')

/-- Handler `POST /api/attendance/face`: `faceRecognitionSchema` bounds confidence to
`[0, 100]` (outside it, `parse` throws and the catch returns 400), then the
handler rejects `confidence < 80` before any store access, resolves the
student, rejects a duplicate for today, else creates a `present` record with
method `face`. -/
def postAttendanceFace (st : MemStorage) (studentId : String) (confidence : ℚ)
    (today : String) (now : Nat) : MarkResp × MemStorage :=
  if confidence < 0 ∨ 100 < confidence then (.invalid, st)
  else if confidence < 80 then (.lowConfidence, st)
  else
    match st.getStudent studentId with
    | none => (.notFound, st)
    | some student =>
      match st.getAttendance student.id today with
      | some _ => (.alreadyMarked, st)
      | none =>
        let (attendance, st') := st.createAttendance
          { studentId := student.id, date := today, status := "present"
            method := some "face", markedBy := none } now
        (.marked (summaryOf student) attendance, st')

/-! ## Report generation (`POST /api/reports/generate`) -/

/-- One element of the handler's `reportData` array. -/
structure ReportRow where
  student : Student
  totalDays : Nat
  presentDays : Nat
  absentDays : Nat
  percentage : Int
deriving DecidableEq, Repr

/-- The row values handed to the spreadsheet / CSV encoder
(`'Admission No'`, `'Name'`, `'Class'`, `'Total Days'`, `'Present Days'`,
`'Absent Days'`, `'Attendance %'`). -/
structure CsvRow where
  admissionNo : String
  name : String
  classLabel : String
  totalDays : Nat
  presentDays : Nat
  absentDays : Nat
  attendancePct : Int
deriving DecidableEq, Repr

/-- The columns printed per row by the PDF branch (no `Total Days`). -/
structure PdfRow where
  admissionNo : String
  name : String
  classLabel : String
  presentDays : Nat
  absentDays : Nat
  percentageLabel : String
deriving DecidableEq, Repr

/-- Map a report row to the values of its CSV / Excel encoding. -/
def csvRowOf (r : ReportRow) : CsvRow :=
  { admissionNo := r.student.admissionNo
    name := r.student.name
    classLabel := r.student.className ++ "-" ++ r.student.sectionName
    totalDays := r.totalDays
    presentDays := r.presentDays
    absentDays := r.absentDays
    attendancePct := r.percentage }

/-- Map a report row to the values printed by the PDF branch. -/
def pdfRowOf (r : ReportRow) : PdfRow :=
  { admissionNo := r.student.admissionNo
    name := r.student.name
    classLabel := r.student.className ++ "-" ++ r.student.sectionName
    presentDays := r.presentDays
    absentDays := r.absentDays
    percentageLabel := toString r.percentage ++ "%" }

/-- The handler's `reportData` loop: one row per filtered student, with
history counts over the range and `Math.round` of the percentage. -/
def reportDataOf (st : MemStorage) (dateRange : DateRange)
    (className : Option String) : List ReportRow :=
  let students := st.getStudents
    (if strTruthy className then
      some { className := className, sectionName := none } else none)
  students.map (fun s =>
    let history := st.getAttendanceHistory s.id (some dateRange)
    let percentage := st.getStudentAttendancePercentage s.id (some dateRange)
    let presentDays := (history.filter
      (fun h => h.status = "present" || h.status = "late")).length
    let absentDays := (history.filter (fun h => h.status = "absent")).length
    { student := s
      totalDays := history.length
      presentDays := presentDays
      absentDays := absentDays
      percentage := jsRound percentage })

/-- Responses of the report endpoint. -/
inductive ReportResp where
  /-- Excel attachment: the row values handed to `json_to_sheet`. -/
  | excelFile (rows : List CsvRow)
  /-- CSV attachment: the row values handed to `json_to_sheet`/`sheet_to_csv`. -/
  | csvFile (rows : List CsvRow)
  /-- PDF attachment: the row values printed into the document. -/
  | pdfFile (rows : List PdfRow)
  /-- The `res.json(reportData)` structured-data payload of the final
  `else` branch. -/
  | structuredData (rows : List ReportRow)
  /-- Status 400 "Failed to generate report" (validation failure). -/
  | badRequest
deriving DecidableEq, Repr

/-- The handler body after schema validation: the `if/else` chain on
`format`, ending in the structured-data `else` branch. -/
def reportDispatch (st : MemStorage) (dateRange : DateRange)
    (className : Option String) (format : String) : ReportResp :=
  let rows := reportDataOf st dateRange className
  if format = "excel" then .excelFile (rows.map csvRowOf)
  else if format = "csv" then .csvFile (rows.map csvRowOf)
  else if format = "pdf" then .pdfFile (rows.map pdfRowOf)
  else .structuredData rows

/-- Handler `POST /api/reports/generate`: `reportGenerationSchema` requires
`format ∈ {excel, csv, pdf}` (a `z.enum`); any other request fails `parse`
and the catch handler returns 400. -/
def postReportsGenerate (st : MemStorage) (dateRange : DateRange)
    (className : Option String) (format : String) : ReportResp :=
  if format = "excel" ∨ format = "csv" ∨ format = "pdf" then
    reportDispatch st dateRange className format
  else .badRequest

/-! ## Concrete fixtures used by the examples, witnesses and evaluations -/

/-- A student of class 10, section A. -/
def stuA : Student :=
  { id := "s1", admissionNo := "APS001", name := "A", className := "10"
    sectionName := "A", rollNo := "01", email := none, contactNo := none
    parentContact := none, photoUrl := none, qrCode := some "QR_APS001"
    faceDescriptor := none, createdAt := 0 }

/-- A second student of class 10, section A. -/
def stuB : Student :=
  { id := "s2", admissionNo := "APS002", name := "B", className := "10"
    sectionName := "A", rollNo := "02", email := none, contactNo := none
    parentContact := none, photoUrl := none, qrCode := some "QR_APS002"
    faceDescriptor := none, createdAt := 0 }

/-- A third student of class 10, section B. -/
def stuC : Student :=
  { id := "s3", admissionNo := "APS003", name := "C", className := "10"
    sectionName := "B", rollNo := "03", email := none, contactNo := none
    parentContact := none, photoUrl := none, qrCode := some "QR_APS003"
    faceDescriptor := none, createdAt := 0 }

/-- The store right after construction, before any seeding. -/
def emptyStore : MemStorage := { students := [], attendance := [], nextId := 0 }

/-- A store holding one student and no attendance. -/
def oneStudentStore : MemStorage :=
  { students := [stuA], attendance := [], nextId := 0 }

/-- A store holding two students and no attendance. -/
def twoStudentStore : MemStorage :=
  { students := [stuA, stuB], attendance := [], nextId := 0 }

/-- One `present` record for `stuA` on 2025-01-06. -/
def recA1 : Attendance :=
  { id := "a1", studentId := "s1", date := "2025-01-06", status := "present"
    method := some "manual", timestamp := 1, markedBy := none }

/-- One `present` record for `stuB` on 2025-01-06. -/
def recA2 : Attendance :=
  { id := "a2", studentId := "s2", date := "2025-01-06", status := "present"
    method := some "manual", timestamp := 2, markedBy := none }

/-- Three students, two `present` records for 2025-01-06: the `dailyStats`
example of the specification. -/
def threeStudentStore : MemStorage :=
  { students := [stuA, stuB, stuC], attendance := [recA1, recA2], nextId := 0 }

/-- History fixtures for `studentPercentage`: `[present, absent, late]`. -/
def recH1 : Attendance :=
  { id := "h1", studentId := "s1", date := "2025-01-05", status := "present"
    method := none, timestamp := 1, markedBy := none }

/-- Second history record: `absent` on 2025-01-06. -/
def recH2 : Attendance :=
  { id := "h2", studentId := "s1", date := "2025-01-06", status := "absent"
    method := none, timestamp := 2, markedBy := none }

/-- Third history record: `late` on 2025-01-07. -/
def recH3 : Attendance :=
  { id := "h3", studentId := "s1", date := "2025-01-07", status := "late"
    method := none, timestamp := 3, markedBy := none }

/-- One student with history `[present, absent, late]`. -/
def historyStore : MemStorage :=
  { students := [stuA], attendance := [recH1, recH2, recH3], nextId := 0 }

/-- The manual-marking body used to demonstrate the duplicate-check gap. -/
def dupBody : InsertAttendance :=
  { studentId := "s1", date := "2025-01-06", status := "present"
    method := some "manual", markedBy := none }

/-- The manual-marking body naming a student id that resolves to nothing. -/
def ghostBody : InsertAttendance :=
  { studentId := "ghost", date := "2025-01-06", status := "present"
    method := some "manual", markedBy := none }

/-- First manual submission of `dupBody` against `oneStudentStore`. -/
def dupFirst : MarkResp × MemStorage := postAttendance oneStudentStore dupBody 10

/-- Second manual submission of the same `(student, date)` pair. -/
def dupSecond : MarkResp × MemStorage := postAttendance dupFirst.2 dupBody 11

/-- C10's reachable state, step 1: create a student in an empty store. -/
def c10Create : Student × MemStorage :=
  emptyStore.createStudent
    { admissionNo := "APS001", name := "A", className := "10", sectionName := "A"
      rollNo := "01", email := none, contactNo := none, parentContact := none
      photoUrl := none, faceDescriptor := none } 0

/-- C10, step 2: mark that student present for 2025-01-06. -/
def c10Marked : MemStorage :=
  (c10Create.2.createAttendance
    { studentId := c10Create.1.id, date := "2025-01-06", status := "present"
      method := some "manual", markedBy := none } 1).2

/-- C10, step 3: delete the student, leaving the record orphaned. -/
def c10Deleted : MemStorage := (c10Marked.deleteStudent c10Create.1.id).2

/-! ## Helper lemmas -/

/-- Insertion by `orderedInsert` commutes with `filter` for a predicate whose holders are
pairwise related: the inserted element lands in front of every other holder
(the stability kernel). -/
theorem filter_orderedInsert {α : Type} (r : α → α → Prop) [DecidableRel r]
    (p : α → Bool) (hp : ∀ x b, p x = true → p b = true → r x b) (x : α) :
    ∀ l : List α, (l.orderedInsert r x).filter p =
      if p x then x :: l.filter p else l.filter p
  | [] => by simp [List.orderedInsert, List.filter_cons]
  | b :: l => by
    rw [List.orderedInsert]
    by_cases hrb : r x b
    · rw [if_pos hrb, List.filter_cons, List.filter_cons]
    · rw [if_neg hrb, List.filter_cons,
        filter_orderedInsert r p hp x l, List.filter_cons]
      by_cases hpx : p x
      · have hpb : ¬ p b = true := fun hb => hrb (hp x b hpx hb)
        simp [hpx, hpb]
      · simp [hpx]

/-- Stability of `insertionSort`: the subsequence of elements satisfying a
predicate whose holders are pairwise related keeps its original order. -/
theorem filter_insertionSort {α : Type} (r : α → α → Prop) [DecidableRel r]
    (p : α → Bool) (hp : ∀ x b, p x = true → p b = true → r x b) :
    ∀ l : List α, (l.insertionSort r).filter p = l.filter p
  | [] => rfl
  | b :: l => by
    rw [List.insertionSort, filter_orderedInsert r p hp,
      filter_insertionSort r p hp l, List.filter_cons]

/-- Ids collected from a filtered student list, as a single `any` scan. -/
theorem filter_map_ids_contains (p : Student → Bool) (x : String) :
    ∀ l : List Student,
      (((l.filter p).map (fun s => s.id)).contains x) =
        l.any (fun s => p s && s.id = x)
  | [] => rfl
  | s :: l => by
    rw [List.filter_cons, List.any_cons]
    by_cases hp : p s
    · rw [if_pos (by simpa using hp), List.map_cons, List.contains_cons,
        filter_map_ids_contains p x l, hp, Bool.true_and]
      by_cases hx : s.id = x
      · subst hx; simp
      · have hx' : (x == s.id) = false := by
          simpa using fun hh => hx hh.symm
        simp [hx', hx]
    · rw [if_neg (by simpa using hp), filter_map_ids_contains p x l]
      simp [hp]

/-! ## Spec-side definitions

These restate the specification's wording over the raw store, independently
of the composed query pipeline of the code; the claims' theorems compare the
code's results against them. -/

/-- Spec wording of `getStudents` filtering: "all students matching the
given non-empty filter fields". -/
def specStudentMatches (filters : Option StudentFilters) (s : Student) : Bool :=
  match filters with
  | none => true
  | some f =>
    (if strTruthy f.className then s.className = f.className.getD "" else true)
    && (if strTruthy f.sectionName then s.sectionName = f.sectionName.getD "" else true)

/-- Spec scope of `dailyStats`: the students matching the class filter. -/
def specScopeStudents (st : MemStorage) (className : Option String) : List Student :=
  if strTruthy className then
    st.students.filter (fun s => s.className = className.getD "")
  else st.students

/-- A record is in scope for `dailyStats` when its student belongs to the
filtered class (every record is in scope without a filter). -/
def specRecordInScope (st : MemStorage) (className : Option String)
    (a : Attendance) : Bool :=
  if strTruthy className then
    st.students.any (fun s => s.className = className.getD "" && s.id = a.studentId)
  else true

/-- Spec count of the date's in-scope records with a given status. -/
def specStatusCount (st : MemStorage) (date : String) (className : Option String)
    (status : String) : Nat :=
  st.attendance.countP
    (fun a => a.date = date && a.status = status && specRecordInScope st className a)

/-- Spec count of all in-scope records for the date. -/
def specRecordCount (st : MemStorage) (date : String)
    (className : Option String) : Nat :=
  st.attendance.countP (fun a => a.date = date && specRecordInScope st className a)

/-- Spec membership test of `studentPercentage`'s range filter. -/
def specInRange (dateRange : Option DateRange) (a : Attendance) : Bool :=
  match dateRange with
  | some r => strLe r.fromDate a.date && strLe a.date r.toDate
  | none => true

/-- Spec count of a student's records in range with status in a set. -/
def specHistCount (st : MemStorage) (studentId : String)
    (dateRange : Option DateRange) (p : Attendance → Bool) : Nat :=
  st.attendance.countP
    (fun a => a.studentId = studentId && specInRange dateRange a && p a)

/-- Normal form of `getStudents`: one filter pass then the stable sort. -/
theorem MemStorage.getStudents_eq (st : MemStorage) (f : Option StudentFilters) :
    st.getStudents f =
      (st.students.filter (specStudentMatches f)).insertionSort studentNameLe := by
  cases f with
  | none =>
    simp only [MemStorage.getStudents]
    congr 1
    refine ((List.filter_congr (fun s _ => ?_)).trans (List.filter_true _)).symm
    rfl
  | some f =>
    simp only [MemStorage.getStudents]
    congr 1
    cases hc : strTruthy f.className <;> cases hs : strTruthy f.sectionName <;>
      simp only [hc, hs, Bool.false_eq_true, if_false, if_true]
    · refine ((List.filter_congr (fun s _ => ?_)).trans (List.filter_true _)).symm
      simp [specStudentMatches, hc, hs]
    · exact List.filter_congr (fun s _ => by simp [specStudentMatches, hc, hs])
    · exact List.filter_congr (fun s _ => by simp [specStudentMatches, hc, hs])
    · rw [List.filter_filter]
      exact List.filter_congr (fun s _ => by
        simp only [specStudentMatches, hc, hs, if_true]
        rw [Bool.and_comm])

/-- Normal form of `getAttendanceByDate`: one filter pass over the raw
records, scoped by class membership. -/
theorem MemStorage.getAttendanceByDate_eq (st : MemStorage) (date : String)
    (className : Option String) :
    st.getAttendanceByDate date className =
      st.attendance.filter
        (fun a => a.date = date && specRecordInScope st className a) := by
  simp only [MemStorage.getAttendanceByDate]
  cases hc : strTruthy className <;>
    simp only [hc, Bool.false_eq_true, if_false, if_true]
  · exact List.filter_congr (fun a _ => by simp [specRecordInScope, hc])
  · rw [List.filter_filter]
    exact List.filter_congr (fun a _ => by
      rw [filter_map_ids_contains]
      simp only [specRecordInScope, hc, if_true]
      rw [Bool.and_comm])

/-- Query `getAttendanceHistory` is a permutation of one filter pass over the raw
records (the descending date sort only reorders). -/
theorem MemStorage.getAttendanceHistory_perm (st : MemStorage) (studentId : String)
    (dateRange : Option DateRange) :
    (st.getAttendanceHistory studentId dateRange).Perm
      (st.attendance.filter
        (fun a => a.studentId = studentId && specInRange dateRange a)) := by
  cases dateRange with
  | none =>
    simp only [MemStorage.getAttendanceHistory]
    have h : st.attendance.filter (fun a => a.studentId = studentId && specInRange none a)
        = st.attendance.filter (fun a => a.studentId = studentId) :=
      List.filter_congr (fun a _ => by simp [specInRange])
    rw [h]
    exact List.perm_insertionSort _ _
  | some r =>
    simp only [MemStorage.getAttendanceHistory]
    have h : st.attendance.filter
          (fun a => a.studentId = studentId && specInRange (some r) a)
        = (st.attendance.filter (fun a => a.studentId = studentId)).filter
            (fun a => strLe r.fromDate a.date && strLe a.date r.toDate) := by
      rw [List.filter_filter]
      exact List.filter_congr (fun a _ => by
        simp only [specInRange]
        exact Bool.and_comm _ _)
    rw [h]
    exact List.perm_insertionSort _ _

/-- Length of a history query, as a spec-side count. -/
theorem MemStorage.getAttendanceHistory_length (st : MemStorage) (studentId : String)
    (dateRange : Option DateRange) :
    (st.getAttendanceHistory studentId dateRange).length =
      specHistCount st studentId dateRange (fun _ => true) := by
  rw [(st.getAttendanceHistory_perm studentId dateRange).length_eq,
    ← List.countP_eq_length_filter, specHistCount]
  exact List.countP_congr (fun a _ => by simp)

/-- Status-filtered length of a history query, as a spec-side count. -/
theorem MemStorage.getAttendanceHistory_filter_length (st : MemStorage)
    (studentId : String) (dateRange : Option DateRange) (p : Attendance → Bool) :
    ((st.getAttendanceHistory studentId dateRange).filter p).length =
      specHistCount st studentId dateRange p := by
  rw [← List.countP_eq_length_filter,
    (st.getAttendanceHistory_perm studentId dateRange).countP_eq,
    List.countP_filter, specHistCount]
  exact List.countP_congr (fun a _ => by
    cases hp : p a <;> cases hs : (a.studentId = studentId : Bool) <;>
      cases hr : specInRange dateRange a <;> simp [hp, hs, hr])

/-- The class scope of `getAttendanceStats` matches the spec's scope. -/
theorem scopeStudents_eq (st : MemStorage) (className : Option String) :
    st.students.filter (specStudentMatches
        (if strTruthy className then
          some { className := className, sectionName := none } else none))
      = specScopeStudents st className := by
  cases hc : strTruthy className <;>
    simp only [hc, Bool.false_eq_true, if_false, if_true, specScopeStudents]
  · exact (List.filter_congr (fun s _ => rfl)).trans (List.filter_true _)
  · have hnone : strTruthy none = false := rfl
    exact List.filter_congr (fun s _ => by simp [specStudentMatches, hc, hnone])

/-- Status-filtered length of a day query, as a spec-side count. -/
theorem statusCount_eq (st : MemStorage) (date : String)
    (className : Option String) (status : String) :
    ((st.getAttendanceByDate date className).filter
        (fun a => a.status = status)).length
      = specStatusCount st date className status := by
  rw [MemStorage.getAttendanceByDate_eq, ← List.countP_eq_length_filter,
    List.countP_filter, specStatusCount]
  exact List.countP_congr (fun a _ => by
    cases h1 : (decide (a.date = date)) <;> cases h2 : (decide (a.status = status)) <;>
      cases h3 : specRecordInScope st className a <;> simp [h1, h2, h3])

/-- Length of a day query, as a spec-side count. -/
theorem recordCount_eq (st : MemStorage) (date : String)
    (className : Option String) :
    (st.getAttendanceByDate date className).length
      = specRecordCount st date className := by
  rw [MemStorage.getAttendanceByDate_eq, ← List.countP_eq_length_filter,
    specRecordCount]

/-! ## Claims -/

/-- C1: the claim says every marking path checks for an existing record for
`(student, date)` before inserting, so a second `markAttendance` for the
same pair fails with a duplicate error.  The manual path
(`POST /api/attendance`) performs no such check: submitting the same body
twice succeeds twice (two 201 responses) and leaves two records for the
pair in the store, violating the one-record-per-(student, date) invariant
the specification calls the central business rule. -/
theorem claim_C1_manual_path_allows_duplicates :
    dupFirst.1 = .created
      { id := "uuid-0", studentId := "s1", date := "2025-01-06"
        status := "present", method := some "manual", timestamp := 10
        markedBy := none }
    ∧ dupSecond.1 = .created
      { id := "uuid-1", studentId := "s1", date := "2025-01-06"
        status := "present", method := some "manual", timestamp := 11
        markedBy := none }
    ∧ (dupSecond.2.attendance.filter
        (fun a => a.studentId = "s1" && a.date = "2025-01-06")).length = 2 := by
  exact ⟨rfl, rfl, rfl⟩

/-- C2: the claim says every marking path fails with a not-found error and
creates nothing when the student id does not resolve, including the manual
one.  The QR and face paths do check (conjuncts 4 and 5), but the manual
path (`POST /api/attendance`) performs no existence check: marking a
non-existent student succeeds with 201 and stores a record whose foreign
reference resolves to nothing, contradicting the schema's declared
reference of `attendance.studentId` into `students`. -/
theorem claim_C2_manual_path_skips_existence_check :
    emptyStore.getStudent "ghost" = none
    ∧ (postAttendance emptyStore ghostBody 5).1 = .created
      { id := "uuid-0", studentId := "ghost", date := "2025-01-06"
        status := "present", method := some "manual", timestamp := 5
        markedBy := none }
    ∧ (postAttendance emptyStore ghostBody 5).2.attendance.length = 1
    ∧ postAttendanceQr emptyStore "ghost" "2025-01-06" 5 = (.notFound, emptyStore)
    ∧ postAttendanceFace emptyStore "ghost" 95 "2025-01-06" 5
        = (.notFound, emptyStore) := by
  refine ⟨rfl, rfl, rfl, rfl, ?_⟩
  decide

/-- C10: the store state reached by creating a student, marking them
present for 2025-01-06 and then deleting the student makes
`getAttendanceStats` report `absent = -1` for that date with no class
filter: the orphaned record still counts, `totalStudents` is 0, and
`unmarked = 0 - 1` drives the absent count negative. -/
theorem claim_C10_stats_absent_can_be_negative :
    c10Deleted.getAttendanceStats "2025-01-06" none
      = { totalStudents := 0, present := 1, absent := -1, late := 0
          attendanceRate := 0 } := by
  decide

/-- The record the face endpoint creates for `stuA` at confidence 80. -/
def faceRec80 : Attendance :=
  { id := "uuid-0", studentId := "s1", date := "2025-01-06"
    status := "present", method := some "face", timestamp := 7
    markedBy := none }

/-- C5: within the domain the schema admits (confidence in `[0, 100]`), the
face endpoint rejects with the low-confidence error — before any store
access, hence identically for every store and with the store unchanged —
exactly when `confidence < 80`; concretely, confidence 79 is rejected with
no record created, and confidence 80 passes the threshold and creates the
record (the boundary is inclusive). -/
theorem claim_C5_confidence_threshold (studentId today : String) (now : Nat)
    (confidence : ℚ) (h0 : 0 ≤ confidence) (h100 : confidence ≤ 100) :
    ((∀ st, postAttendanceFace st studentId confidence today now
        = (.lowConfidence, st)) ↔ confidence < 80)
    ∧ postAttendanceFace oneStudentStore "s1" 79 "2025-01-06" 7
        = (.lowConfidence, oneStudentStore)
    ∧ postAttendanceFace oneStudentStore "s1" 80 "2025-01-06" 7
        = (.marked (summaryOf stuA) faceRec80,
           { students := [stuA], attendance := [faceRec80], nextId := 1 }) := by
  have hvalid : ¬ (confidence < 0 ∨ 100 < confidence) := by
    push_neg
    exact ⟨h0, h100⟩
  refine ⟨⟨fun H => ?_, fun hlt st => ?_⟩, by decide, by decide⟩
  · by_contra hge
    have H0 := H emptyStore
    unfold postAttendanceFace at H0
    rw [if_neg hvalid, if_neg hge] at H0
    have hnone : emptyStore.getStudent studentId = none := rfl
    rw [hnone] at H0
    simp at H0
  · unfold postAttendanceFace
    rw [if_neg hvalid, if_pos hlt]

/-- Witness for C5 at confidence 79: the hypotheses `0 ≤ 79 ≤ 100` hold and
the theorem yields the low-confidence rejection at that boundary input. -/
theorem claim_C5_witness :
    (0 : ℚ) ≤ 79 ∧ (79 : ℚ) ≤ 100 ∧
      ((∀ st, postAttendanceFace st "s1" 79 "2025-01-06" 7
          = (.lowConfidence, st)) ↔ (79 : ℚ) < 80) :=
  ⟨by norm_num, by norm_num,
    (claim_C5_confidence_threshold "s1" "2025-01-06" 7 79
      (by norm_num) (by norm_num)).1⟩

/-- C4: the student percentage is `(present + late) / totalRecords * 100`
over the records found for the student in range (late counting as present),
and 0 when there are no records in range; with history
`[present, absent, late]` it is `200/3` (≈ 66.67, unrounded), and with an
empty history it is 0. -/
theorem claim_C4_student_percentage (st : MemStorage) (studentId : String)
    (dateRange : Option DateRange) :
    (st.getStudentAttendancePercentage studentId dateRange =
      if specHistCount st studentId dateRange (fun _ => true) = 0 then 0
      else (specHistCount st studentId dateRange
              (fun r => r.status = "present" || r.status = "late") : ℚ)
        / (specHistCount st studentId dateRange (fun _ => true) : ℚ) * 100)
    ∧ historyStore.getStudentAttendancePercentage "s1" none = 200 / 3
    ∧ emptyStore.getStudentAttendancePercentage "s1" none = 0 := by
  refine ⟨?_, ?_, rfl⟩
  · simp only [MemStorage.getStudentAttendancePercentage]
    rw [MemStorage.getAttendanceHistory_filter_length,
      MemStorage.getAttendanceHistory_length]
  · have h : historyStore.getStudentAttendancePercentage "s1" none
        = ((2 : Nat) : ℚ) / ((3 : Nat) : ℚ) * 100 := rfl
    rw [h]
    norm_num

/-- C3: `getAttendanceStats` returns `totalStudents` = students in the
class scope, `present`/`late` = in-scope records for the date with that
status, `absent` = recorded absents plus (totalStudents − records for the
date), and `attendanceRate = present / totalStudents * 100` guarded to 0
when `totalStudents = 0`; on 3 students with exactly 2 `present` records
the result is `{3, 2, 1, 0, 200/3}` (≈ 66.67, unrounded). -/
theorem claim_C3_daily_stats (st : MemStorage) (date : String)
    (className : Option String) :
    ((st.getAttendanceStats date className).totalStudents
        = (specScopeStudents st className).length
      ∧ (st.getAttendanceStats date className).present
          = specStatusCount st date className "present"
      ∧ (st.getAttendanceStats date className).late
          = specStatusCount st date className "late"
      ∧ (st.getAttendanceStats date className).absent
          = (specStatusCount st date className "absent" : Int)
            + (((specScopeStudents st className).length : Int)
                - (specRecordCount st date className : Int))
      ∧ (st.getAttendanceStats date className).attendanceRate
          = (if 0 < (specScopeStudents st className).length then
              (specStatusCount st date className "present" : ℚ)
                / ((specScopeStudents st className).length : ℚ) * 100
            else 0))
    ∧ (threeStudentStore.getAttendanceStats "2025-01-06" none).totalStudents = 3
    ∧ (threeStudentStore.getAttendanceStats "2025-01-06" none).present = 2
    ∧ (threeStudentStore.getAttendanceStats "2025-01-06" none).absent = 1
    ∧ (threeStudentStore.getAttendanceStats "2025-01-06" none).late = 0
    ∧ (threeStudentStore.getAttendanceStats "2025-01-06" none).attendanceRate
        = 200 / 3 := by
  have hstu : (st.getStudents (if strTruthy className then
        some { className := className, sectionName := none } else none)).length
      = (specScopeStudents st className).length := by
    rw [MemStorage.getStudents_eq, List.length_insertionSort, scopeStudents_eq]
  refine ⟨⟨?_, ?_, ?_, ?_, ?_⟩, by decide, by decide, by decide, by decide, ?_⟩
  · simp only [MemStorage.getAttendanceStats]
    exact hstu
  · simp only [MemStorage.getAttendanceStats]
    exact statusCount_eq st date className "present"
  · simp only [MemStorage.getAttendanceStats]
    exact statusCount_eq st date className "late"
  · simp only [MemStorage.getAttendanceStats]
    rw [statusCount_eq, recordCount_eq, hstu]
  · simp only [MemStorage.getAttendanceStats]
    rw [statusCount_eq, hstu]
  · have h : (threeStudentStore.getAttendanceStats "2025-01-06" none).attendanceRate
        = ((2 : Nat) : ℚ) / ((3 : Nat) : ℚ) * 100 := rfl
    rw [h]
    norm_num

/-- C6: `getStudents` returns exactly the students matching the non-empty
filter fields (as a permutation of one filter pass over the store), sorted
ascending by name under the (case-sensitive) lexicographic comparison, and
stably: for every name, the students bearing it appear in their original
store order. -/
theorem claim_C6_get_students_filter_sort_stable (st : MemStorage)
    (filters : Option StudentFilters) :
    (st.getStudents filters).Perm
        (st.students.filter (specStudentMatches filters))
    ∧ List.Sorted studentNameLe (st.getStudents filters)
    ∧ ∀ n, (st.getStudents filters).filter (fun s => s.name = n)
        = (st.students.filter (specStudentMatches filters)).filter
            (fun s => s.name = n) := by
  refine ⟨?_, ?_, ?_⟩
  · rw [MemStorage.getStudents_eq]
    exact List.perm_insertionSort _ _
  · rw [MemStorage.getStudents_eq]
    exact List.sorted_insertionSort _ _
  · intro n
    rw [MemStorage.getStudents_eq]
    refine filter_insertionSort studentNameLe (fun s => s.name = n)
      (fun x b hx hb => ?_) _
    have hxn : x.name = n := by simpa using hx
    have hbn : b.name = n := by simpa using hb
    show strLe x.name b.name = true
    rw [hxn, hbn]
    exact lexLe_refl _

/-- C8: deleting a student removes them from every `getStudents` result
(no surviving student carries the deleted id) while the attendance store is
untouched: a history query for the deleted id returns the very same list,
hence the same count, as before the deletion (no cascade delete). -/
theorem claim_C8_delete_no_cascade (st : MemStorage) (studentId : String)
    (filters : Option StudentFilters) (dateRange : Option DateRange) :
    (∀ s ∈ (st.deleteStudent studentId).2.getStudents filters,
        s.id ≠ studentId)
    ∧ (st.deleteStudent studentId).2.getAttendanceHistory studentId dateRange
        = st.getAttendanceHistory studentId dateRange
    ∧ ((st.deleteStudent studentId).2.getAttendanceHistory studentId
        dateRange).length
        = (st.getAttendanceHistory studentId dateRange).length := by
  refine ⟨?_, rfl, rfl⟩
  intro s hs
  rw [MemStorage.getStudents_eq] at hs
  have hs' := (List.mem_insertionSort _).1 hs
  have hmem : s ∈ (st.deleteStudent studentId).2.students :=
    (List.mem_filter.1 hs').1
  have : s ∈ st.students.filter (fun x => x.id ≠ studentId) := hmem
  simpa using (List.mem_filter.1 this).2

/-- Witness for C8: after deleting `stuA` from the two-student store, the
surviving student returned by `getStudents` is not the deleted one. -/
theorem claim_C8_witness : stuB.id ≠ "s1" :=
  (claim_C8_delete_no_cascade twoStudentStore "s1" none none).1 stuB (by decide)

/-- C9: a record is returned by `getAttendanceHistory` with a range
`{from, to}` exactly when it belongs to the student and its date `d`
satisfies `from ≤ d` and `d ≤ to` under lexicographic string comparison —
inclusive on both ends. -/
theorem claim_C9_history_range_inclusive (st : MemStorage)
    (studentId : String) (r : DateRange) (a : Attendance) :
    a ∈ st.getAttendanceHistory studentId (some r) ↔
      (a ∈ st.attendance ∧ a.studentId = studentId
        ∧ strLe r.fromDate a.date = true ∧ strLe a.date r.toDate = true) := by
  rw [(st.getAttendanceHistory_perm studentId (some r)).mem_iff,
    List.mem_filter]
  simp [specInRange, and_assoc]

/-- Witness for C9: the `present` record of the history fixture lies inside
January 2025 and is indeed returned. -/
theorem claim_C9_witness :
    recH1 ∈ historyStore.getAttendanceHistory "s1"
      (some { fromDate := "2025-01-01", toDate := "2025-01-31" }) :=
  (claim_C9_history_range_inclusive historyStore "s1"
      { fromDate := "2025-01-01", toDate := "2025-01-31" } recH1).mpr
    ⟨by decide, by decide, by decide, by decide⟩

/-- C7 counterexample: the claim needs a structured-data response for the
same parameters as the CSV one, but `reportGenerationSchema` only admits
`format ∈ {excel, csv, pdf}`, so a structured-data request (any other
`format`, here `"json"`) fails validation with 400 and no row list exists
that both responses carry. -/
theorem claim_C7_counterexample :
    (∃ rows : List ReportRow,
      postReportsGenerate oneStudentStore
          { fromDate := "2025-01-01", toDate := "2025-01-31" } none "csv"
        = .csvFile (rows.map csvRowOf)
      ∧ postReportsGenerate oneStudentStore
          { fromDate := "2025-01-01", toDate := "2025-01-31" } none "json"
        = .structuredData rows) ↔ False := by
  rw [iff_false]
  rintro ⟨rows, -, h⟩
  have hbad : postReportsGenerate oneStudentStore
      { fromDate := "2025-01-01", toDate := "2025-01-31" } none "json"
      = .badRequest := by
    rfl
  rw [hbad] at h
  exact ReportResp.noConfusion h

/-- C7 amended: both report encodings derive from the same computed
`reportData`, so the CSV rows are exactly the structured rows' values in
the same order with the same `Math.round` of the percentage; but the
structured branch is dead code — the format validator admits only
excel/csv/pdf, so a structured-data request is rejected with 400 rather
than answered. -/
theorem claim_C7_csv_matches_report_rows (st : MemStorage)
    (dateRange : DateRange) (className : Option String) :
    postReportsGenerate st dateRange className "csv"
        = .csvFile ((reportDataOf st dateRange className).map csvRowOf)
    ∧ reportDispatch st dateRange className "json"
        = .structuredData (reportDataOf st dateRange className)
    ∧ postReportsGenerate st dateRange className "json" = .badRequest := by
  exact ⟨rfl, rfl, rfl⟩
